import Mathlib

set_option autoImplicit false

/-!
Verification development for the OpenHands Kubernetes remote-runtime control
plane.  The Go sources are shallowly embedded: Go strings are `String` (or
`List Char` where byte-level reasoning is needed), Go `map[string]T` is an
association list with Go-map insert/delete semantics, `time.Time` is an `Int`
count of minutes (the zero value of `time.Time` is `0`), and fallible calls
return `Except`/`Option`.  External effects (the Kubernetes API, random ID
generation) are passed in as explicit parameters.
-/

namespace OpenHands

/-! ## Go map embedding

`map[string]T` with `m[k] = v` (replace-or-append) and `delete(m, k)`.
Go maps never hold duplicate keys; states built by these operations keep
keys nodup.  -/

def mapLookup {α : Type} : List (String × α) → String → Option α
  | [], _ => none
  | (k', v) :: rest, k => if k' = k then some v else mapLookup rest k

def mapInsert {α : Type} : List (String × α) → String → α → List (String × α)
  | [], k, v => [(k, v)]
  | (k', v') :: rest, k, v =>
      if k' = k then (k, v) :: rest else (k', v') :: mapInsert rest k v

def mapErase {α : Type} : List (String × α) → String → List (String × α)
  | [], _ => []
  | (k', v') :: rest, k => if k' = k then rest else (k', v') :: mapErase rest k

/-! ## Data model (pkg/types/types.go, pkg/state/state.go) -/

/-- RuntimeStatus: lifecycle state of a sandbox record. -/
inductive RuntimeStatus
  | pending
  | running
  | paused
  | stopped
deriving DecidableEq

/-- PodStatus: observed workload status. -/
inductive PodStatus
  | pending
  | running
  | ready
  | failed
  | crashLoopBackOff
  | notFound
  | unknown
deriving DecidableEq

/-- RuntimeInfo (pkg/state/state.go), including the `LastActivityTime` field
used by the handler, cleanup and reaper code. -/
structure RuntimeInfo where
  runtimeID : String
  sessionID : String
  url : String
  sessionAPIKey : String
  status : RuntimeStatus
  podStatus : PodStatus
  workHosts : List (String × Nat)
  podName : String
  serviceName : String
  ingressName : String
  restartCount : Nat
  restartReasons : List String
  createdAt : Int
  lastActivityTime : Int
deriving DecidableEq

/-- StateManager (pkg/state/state.go): two mappings keyed by runtime id and
session id. -/
structure StateManager where
  runtimeByID : List (String × RuntimeInfo)
  runtimeBySession : List (String × RuntimeInfo)
deriving DecidableEq

/-- NewStateManager. -/
def NewStateManager : StateManager := ⟨[], []⟩

/-- AddRuntime: inserts into both indices. -/
def AddRuntime (s : StateManager) (info : RuntimeInfo) : StateManager :=
  { runtimeByID := mapInsert s.runtimeByID info.runtimeID info
    runtimeBySession := mapInsert s.runtimeBySession info.sessionID info }

/-- GetRuntimeByID: lookup in the runtime-id index. -/
def GetRuntimeByID (s : StateManager) (runtimeID : String) : Option RuntimeInfo :=
  mapLookup s.runtimeByID runtimeID

/-- GetRuntimeBySessionID: lookup in the session-id index. -/
def GetRuntimeBySessionID (s : StateManager) (sessionID : String) : Option RuntimeInfo :=
  mapLookup s.runtimeBySession sessionID

/-- UpdateRuntime: errors if the runtime id is absent, otherwise rewrites both
indices.  The second component is the state after the call (unchanged on
error, as in the Go method which returns before mutating). -/
def UpdateRuntime (s : StateManager) (info : RuntimeInfo) :
    Except String Unit × StateManager :=
  match mapLookup s.runtimeByID info.runtimeID with
  | none => (Except.error ("runtime not found: " ++ info.runtimeID), s)
  | some _ =>
      (Except.ok (),
       { runtimeByID := mapInsert s.runtimeByID info.runtimeID info
         runtimeBySession := mapInsert s.runtimeBySession info.sessionID info })

/-- DeleteRuntime: errors if the runtime id is absent, otherwise removes the
runtime-id entry and the session-id entry keyed by the stored record's
session id. -/
def DeleteRuntime (s : StateManager) (runtimeID : String) :
    Except String Unit × StateManager :=
  match mapLookup s.runtimeByID runtimeID with
  | none => (Except.error ("runtime not found: " ++ runtimeID), s)
  | some info =>
      (Except.ok (),
       { runtimeByID := mapErase s.runtimeByID runtimeID
         runtimeBySession := mapErase s.runtimeBySession info.sessionID })

/-! ## Configuration (pkg/config/config.go), restricted to the fields the
embedded functions read. -/

structure Config where
  apiKey : String
  baseDomain : String
  proxyBaseURL : String
  agentServerPort : Nat
  vscodePort : Nat
  worker1Port : Nat
  worker2Port : Nat
  cleanupFailedThresholdMin : Int
  cleanupIdleThresholdMin : Int
deriving DecidableEq

/-- strings.ToLower restricted to ASCII (session ids are DNS-1123 material). -/
def asciiLowerChar (c : Char) : Char :=
  if 'A' ≤ c ∧ c ≤ 'Z' then Char.ofNat (c.toNat + 32) else c

/-- strings.ToLower on a Go string (ASCII model). -/
def goToLower (s : String) : String :=
  ⟨s.toList.map asciiLowerChar⟩

/-- strings.TrimSuffix. -/
def goTrimSuffix (s suffix : String) : String :=
  if s.endsWith suffix then s.dropRight suffix.length else s

/-! ## API types and responses (pkg/types/types.go, pkg/api/handler.go) -/

/-- StartRequest (pkg/types/types.go).  `ResourceFactor` (a float the
embedded functions never read) is omitted. -/
structure StartRequest where
  image : String
  command : List String
  workingDir : String
  environment : List (String × String)
  sessionID : String
  runtimeClass : String
deriving DecidableEq

/-- RuntimeResponse (pkg/types/types.go). -/
structure RuntimeResponse where
  runtimeID : String
  sessionID : String
  url : String
  vsCodeURL : String
  sessionAPIKey : String
  status : RuntimeStatus
  podStatus : PodStatus
  workHosts : List (String × Nat)
  restartCount : Nat
  restartReasons : List String
deriving DecidableEq

/-- buildRuntimeResponse (pkg/api/handler.go): copies the record into the
response; when a proxy base URL is configured the URL fields are replaced by
the stable proxy paths. -/
def buildRuntimeResponse (cfg : Config) (info : RuntimeInfo) : RuntimeResponse :=
  let resp : RuntimeResponse :=
    { runtimeID := info.runtimeID
      sessionID := info.sessionID
      url := info.url
      vsCodeURL := ""
      sessionAPIKey := info.sessionAPIKey
      status := info.status
      podStatus := info.podStatus
      workHosts := info.workHosts
      restartCount := info.restartCount
      restartReasons := info.restartReasons }
  if cfg.proxyBaseURL ≠ "" then
    let base := goTrimSuffix cfg.proxyBaseURL "/"
    { resp with
      url := base ++ "/sandbox/" ++ info.runtimeID
      vsCodeURL := base ++ "/sandbox/" ++ info.runtimeID ++ "/vscode" }
  else resp

/-! ## StartRuntime (pkg/api/handler.go)

The handler's effectful inputs are explicit parameters: `freshRuntimeID` and
`freshSessionAPIKey` stand for `generateID()` / `generateSessionAPIKey()`,
`now` for `time.Now()`, and `createSandboxOk` for the success of
`k8sClient.CreateSandbox`.  The third result component counts CreateSandbox
calls made by the request. -/

inductive StartOutcome
  | invalidRequest (message : String)
  | ok (resp : RuntimeResponse)
  | sandboxCreationFailed
deriving DecidableEq

/-- The pending record StartRuntime builds for a fresh session before calling
CreateSandbox (handler.go lines 150-169). -/
def mkStartRuntimeInfo (cfg : Config) (req : StartRequest)
    (runtimeID sessionAPIKey : String) (now : Int) : RuntimeInfo :=
  let sessionIDForHost := goToLower req.sessionID
  { runtimeID := runtimeID
    sessionID := req.sessionID
    url := "https://" ++ sessionIDForHost ++ "." ++ cfg.baseDomain
    sessionAPIKey := sessionAPIKey
    status := RuntimeStatus.pending
    podStatus := PodStatus.pending
    podName := "runtime-" ++ runtimeID
    serviceName := "runtime-" ++ runtimeID
    ingressName := "runtime-" ++ runtimeID
    createdAt := now
    lastActivityTime := now
    workHosts :=
      [("https://work-1-" ++ sessionIDForHost ++ "." ++ cfg.baseDomain, cfg.worker1Port),
       ("https://work-2-" ++ sessionIDForHost ++ "." ++ cfg.baseDomain, cfg.worker2Port)]
    restartCount := 0
    restartReasons := [] }

/-- StartRuntime (pkg/api/handler.go lines 114-200). -/
def startRuntime (cfg : Config) (s : StateManager) (req : StartRequest)
    (freshRuntimeID freshSessionAPIKey : String) (now : Int)
    (createSandboxOk : Bool) : StartOutcome × StateManager × Nat :=
  if req.image = "" then (StartOutcome.invalidRequest "Image is required", s, 0)
  else if req.sessionID = "" then
    (StartOutcome.invalidRequest "Session ID is required", s, 0)
  else
    match GetRuntimeBySessionID s req.sessionID with
    | some existingRuntime =>
        (StartOutcome.ok (buildRuntimeResponse cfg existingRuntime), s, 0)
    | none =>
        let runtimeInfo := mkStartRuntimeInfo cfg req freshRuntimeID freshSessionAPIKey now
        let s₁ := AddRuntime s runtimeInfo
        if createSandboxOk then
          let runtimeInfoRunning := { runtimeInfo with status := RuntimeStatus.running }
          let s₂ := (UpdateRuntime s₁ runtimeInfoRunning).2
          (StartOutcome.ok (buildRuntimeResponse cfg runtimeInfoRunning), s₂, 1)
        else
          (StartOutcome.sandboxCreationFailed, (DeleteRuntime s₁ freshRuntimeID).2, 1)

/-! ## Cleanup service (pkg/cleanup/cleanup.go, embedded in the repository at
pkg/logger/logger_test.go lines 229-430) -/

/-- PodStatusInfo (pkg/k8s/client.go). -/
structure PodStatusInfo where
  status : PodStatus
  restartCount : Nat
  restartReasons : List String
deriving DecidableEq

/-- shouldCleanupRuntime (cleanup.go): failed/crash-loop pods past the failed
threshold are reaped as `pod_failed`; all other pods past the idle threshold
— measured from `CreatedAt` — are reaped as `pod_idle`. -/
def shouldCleanupRuntime (cfg : Config) (now : Int) (runtime : RuntimeInfo)
    (podStatus : PodStatusInfo) : Bool × String :=
  if (podStatus.status = PodStatus.failed ∨ podStatus.status = PodStatus.crashLoopBackOff) ∧
      now - runtime.createdAt ≥ cfg.cleanupFailedThresholdMin then
    (true, "pod_failed")
  else if (podStatus.status ≠ PodStatus.failed ∧ podStatus.status ≠ PodStatus.crashLoopBackOff) ∧
      now - runtime.createdAt ≥ cfg.cleanupIdleThresholdMin then
    (true, "pod_idle")
  else
    (false, "")

def c10State : StateManager :=
  AddRuntime NewStateManager
    { runtimeID := "rt-a", sessionID := "sess-a", url := "", sessionAPIKey := "k"
      status := RuntimeStatus.running, podStatus := PodStatus.ready, workHosts := []
      podName := "runtime-rt-a", serviceName := "runtime-rt-a", ingressName := "runtime-rt-a"
      restartCount := 0, restartReasons := [], createdAt := 0, lastActivityTime := 0 }

def c1Config : Config :=
  { apiKey := "mk", baseDomain := "example.com", proxyBaseURL := ""
    agentServerPort := 60000, vscodePort := 60001, worker1Port := 12000, worker2Port := 12001
    cleanupFailedThresholdMin := 60, cleanupIdleThresholdMin := 1440 }

def c1Req : StartRequest :=
  { image := "img", command := [], workingDir := "", environment := []
    sessionID := "S1", runtimeClass := "" }

def c3Config : Config :=
  { apiKey := "mk", baseDomain := "example.com", proxyBaseURL := "https://rt.example.com"
    agentServerPort := 60000, vscodePort := 60001, worker1Port := 12000, worker2Port := 12001
    cleanupFailedThresholdMin := 60, cleanupIdleThresholdMin := 1440 }

def c3Req : StartRequest :=
  { image := "img", command := ["/bin/server"], workingDir := "/w", environment := []
    sessionID := "S3", runtimeClass := "" }

/-! ## C2: idle reaping is measured from `createdAt`, not last activity.

The embedded `shouldCleanupRuntime` (cleanup.go) compares
`now - runtime.CreatedAt` against the idle threshold.  The record below was
created 1800 minutes ago but proxied 60 minutes ago, so under the claim (idle
time measured from `last_activity_at`, threshold 1440 minutes) it must not be
reaped — yet the code reaps it as `pod_idle`.  The repository's own test
`TestShouldCleanupRuntime_WithLastActivityTime` (pkg/cleanup/cleanup_test.go)
expects the last-activity behaviour, so this is a code bug. -/

def c2Config : Config :=
  { apiKey := "", baseDomain := "example.com", proxyBaseURL := ""
    agentServerPort := 60000, vscodePort := 60001, worker1Port := 12000, worker2Port := 12001
    cleanupFailedThresholdMin := 60, cleanupIdleThresholdMin := 1440 }

def c2Runtime : RuntimeInfo :=
  { runtimeID := "rt-idle", sessionID := "sess-idle", url := "", sessionAPIKey := ""
    status := RuntimeStatus.running, podStatus := PodStatus.ready, workHosts := []
    podName := "runtime-rt-idle", serviceName := "runtime-rt-idle"
    ingressName := "runtime-rt-idle", restartCount := 0, restartReasons := []
    createdAt := 0, lastActivityTime := 1740 }

/-! ## Byte-level Go string helpers (`List Char` view)

The proxy and cookie code must be reasoned about byte-for-byte (the whole
point of C4 is that no decoding happens), so those functions are embedded
over `List Char`. -/

/-- strings.HasPrefix: `isPref p s` is true when `p` is a prefix of `s`. -/
def isPref : List Char → List Char → Bool
  | [], _ => true
  | _ :: _, [] => false
  | p :: ps, c :: cs => p = c && isPref ps cs

/-- strings.TrimPrefix: drops `p` from the front of `s` when present,
otherwise returns `s` unchanged. -/
def trimPref (p s : List Char) : List Char :=
  if isPref p s then s.drop p.length else s

/-- strings.SplitN(s, "/", 2): the segment before the first slash, and the
remainder after it (`none` when `s` has no slash). -/
def splitFirstSlash : List Char → List Char × Option (List Char)
  | [] => ([], none)
  | c :: cs =>
      if c = '/' then ([], some cs)
      else
        let r := splitFirstSlash cs
        (c :: r.1, r.2)

/-! ## Auth middleware (pkg/api/handler.go lines 42-78) -/

/-- pathIsSandboxProxy: the request path starts with `/sandbox/` and carries
at least a runtime-id character after it. -/
def pathIsSandboxProxy (path : List Char) : Bool :=
  if ¬ isPref ("/sandbox/".toList) path then false
  else trimPref ("/sandbox/".toList) path ≠ []

/-- AuthMiddleware decision.  `forwardToNext` means the wrapped handler runs. -/
inductive AuthDecision
  | forwardToNext
  | unauthorized
deriving DecidableEq

/-- authMiddleware: sandbox-proxy paths are forwarded without reading or
comparing the management key; all other paths require `X-API-Key` to equal
the configured key.  The Boolean result records whether the management key
was compared (`r.Header.Get` returns `""` for an absent header).  The
decision inspects nothing else: no state, no proxy configuration. -/
def authMiddleware (cfg : Config) (path : List Char) (apiKeyHeader : Option String) :
    AuthDecision × Bool :=
  if pathIsSandboxProxy path then (AuthDecision.forwardToNext, false)
  else
    let apiKey := apiKeyHeader.getD ""
    if apiKey = "" ∨ apiKey ≠ cfg.apiKey then (AuthDecision.unauthorized, true)
    else (AuthDecision.forwardToNext, true)

/-! ## Pod model and GetPodStatus (unnamed k8s client source, GetPodStatus
and buildRuntimeInfoFromPod) -/

/-- corev1.PodPhase: the five named phases plus the zero value. -/
inductive PodPhase
  | pending
  | running
  | succeeded
  | failed
  | unknown
  | phaseEmpty
deriving DecidableEq

/-- corev1.ContainerState: `Waiting`/`Terminated` pointers carrying a reason
(`none` models a nil pointer). -/
structure ContainerState where
  waitingReason : Option String
  terminatedReason : Option String
deriving DecidableEq

/-- corev1.ContainerStatus. -/
structure ContainerStatus where
  ready : Bool
  restartCount : Nat
  state : ContainerState
deriving DecidableEq

/-- corev1.EnvVar. -/
structure EnvVar where
  name : String
  value : String
deriving DecidableEq

/-- corev1.Container, restricted to the environment the discovery code reads. -/
structure Container where
  env : List EnvVar
deriving DecidableEq

/-- corev1.Pod, restricted to the fields the embedded functions read.
`creationTimestamp = 0` models the zero `time.Time`. -/
structure Pod where
  name : String
  labels : List (String × String)
  creationTimestamp : Int
  containers : List Container
  phase : PodPhase
  containerStatuses : List ContainerStatus
deriving DecidableEq

/-- Accumulator of GetPodStatus's container loop. -/
structure ScanAcc where
  status : PodStatus
  restartCount : Nat
  restartReasons : List String
deriving DecidableEq

/-- One iteration of GetPodStatus's container loop: sum restart counts, flag
crash-loop when a container waits with that reason, and collect the
waiting/terminated reason strings. -/
def containerScan (acc : ScanAcc) (cs : ContainerStatus) : ScanAcc :=
  let restartCount := acc.restartCount + cs.restartCount
  let status :=
    match cs.state.waitingReason with
    | some reason =>
        if reason = "CrashLoopBackOff" then PodStatus.crashLoopBackOff else acc.status
    | none => acc.status
  let reasons₁ :=
    match cs.state.waitingReason with
    | some reason => acc.restartReasons ++ [reason]
    | none => acc.restartReasons
  let reasons₂ :=
    match cs.state.terminatedReason with
    | some reason => reasons₁ ++ [reason]
    | none => reasons₁
  ⟨status, restartCount, reasons₂⟩

/-- GetPodStatus (k8s client): `none` is the not-found case; otherwise the
container loop runs first and the phase switch then overrides the status for
the four named cases it handles. -/
def getPodStatus (pod? : Option Pod) : PodStatusInfo :=
  match pod? with
  | none => { status := PodStatus.notFound, restartCount := 0, restartReasons := [] }
  | some pod =>
      let scan := pod.containerStatuses.foldl containerScan
        ⟨PodStatus.pending, 0, []⟩
      let status :=
        match pod.phase with
        | PodPhase.pending => PodStatus.pending
        | PodPhase.running =>
            if pod.containerStatuses.all (fun cs => cs.ready) ∧
                pod.containerStatuses.length > 0
            then PodStatus.ready else PodStatus.running
        | PodPhase.failed => PodStatus.failed
        | PodPhase.unknown => PodStatus.unknown
        | _ => scan.status
      { status := status, restartCount := scan.restartCount
        restartReasons := scan.restartReasons }

/-- Some container is waiting with reason CrashLoopBackOff. -/
def hasCrashLoopWaiting (pod : Pod) : Bool :=
  pod.containerStatuses.any fun cs => cs.state.waitingReason = some "CrashLoopBackOff"

/-- Spec-side status mapping for the amended C6: the crash-loop
classification survives only when the phase switch does not override it
(phase neither Pending, Running, Failed nor Unknown). -/
def podStatusSpec (pod : Pod) : PodStatus :=
  match pod.phase with
  | PodPhase.failed => PodStatus.failed
  | PodPhase.pending => PodStatus.pending
  | PodPhase.unknown => PodStatus.unknown
  | PodPhase.running =>
      if pod.containerStatuses ≠ [] ∧ pod.containerStatuses.all (fun cs => cs.ready)
      then PodStatus.ready else PodStatus.running
  | _ =>
      if hasCrashLoopWaiting pod then PodStatus.crashLoopBackOff else PodStatus.pending

/-- Spec-side restart-count aggregate: the sum over containers. -/
def podRestartCountSpec (pod : Pod) : Nat :=
  (pod.containerStatuses.map fun cs => cs.restartCount).sum

/-- Spec-side reason collection: per container, the waiting reason then the
terminated reason, in container order. -/
def podRestartReasonsSpec (pod : Pod) : List String :=
  (pod.containerStatuses.map fun cs =>
    cs.state.waitingReason.toList ++ cs.state.terminatedReason.toList).flatten

/-- C6 counterexample: a pod in phase Running with a container waiting with
reason CrashLoopBackOff is classified `running`, not `crash-loop` — the phase
switch overrides the container-loop result, contradicting the claim's rule
that any crash-loop-waiting container yields `crash-loop`. -/
def c6CrashPod : Pod :=
  { name := "runtime-crash", labels := [], creationTimestamp := 5, containers := []
    phase := PodPhase.running
    containerStatuses :=
      [{ ready := false, restartCount := 5
         state := { waitingReason := some "CrashLoopBackOff", terminatedReason := none } }] }

/-- buildRuntimeInfoFromPod (k8s client): reconstructs a sandbox record from
a discovered pod.  `statusResult` is the outcome of the embedded GetPodStatus
call on the pod's name (`none` models the error case, which falls back to
unknown status).  Discovery callers guarantee at least one container; the
first container's environment is scanned for the session key (first match
wins, default empty). -/
def buildRuntimeInfoFromPod (cfg : Config) (now : Int) (pod : Pod)
    (statusResult : Option PodStatusInfo) (runtimeID sessionID : String) : RuntimeInfo :=
  let sessionAPIKey :=
    match (pod.containers.headD { env := [] }).env.find?
        (fun e => e.name = "OH_SESSION_API_KEYS_0") with
    | some e => e.value
    | none => ""
  let sessionIDForHost := goToLower sessionID
  let baseURL := "https://" ++ sessionIDForHost ++ "." ++ cfg.baseDomain
  let stInfo := statusResult.getD
    { status := PodStatus.unknown, restartCount := 0, restartReasons := [] }
  let createdAt := if pod.creationTimestamp = 0 then now else pod.creationTimestamp
  { runtimeID := runtimeID
    sessionID := sessionID
    url := baseURL
    sessionAPIKey := sessionAPIKey
    status := RuntimeStatus.running
    podStatus := stInfo.status
    workHosts :=
      [("https://work-1-" ++ sessionIDForHost ++ "." ++ cfg.baseDomain, cfg.worker1Port),
       ("https://work-2-" ++ sessionIDForHost ++ "." ++ cfg.baseDomain, cfg.worker2Port)]
    podName := pod.name
    serviceName := pod.name
    ingressName := pod.name
    restartCount := stInfo.restartCount
    restartReasons := stInfo.restartReasons
    createdAt := createdAt
    lastActivityTime := now }

def c8Pod : Pod :=
  { name := "runtime-r8", labels := [("app", "openhands-runtime")]
    creationTimestamp := 99, containers := [{ env := [⟨"OH_SESSION_API_KEYS_0", "k8"⟩] }]
    phase := PodPhase.running, containerStatuses := [] }

/-! ## Single-lookup handlers (pkg/api/handler.go lines 374-427)

`statusResult` models the GetPodStatus call the handlers make to refresh the
record (`none` = error, no refresh).  `discover…` parameters model what the
corresponding k8s discovery call would return (`none` covers both a discovery
error and no matching pod, which the handler treats identically).  The third
result component counts discovery calls performed. -/

inductive LookupOutcome
  | found (resp : RuntimeResponse)
  | notFound404
deriving DecidableEq

/-- updateRuntimeStatusFromK8s (handler.go): refreshes the record's pod
status fields when GetPodStatus succeeds. -/
def updateRuntimeStatusFromK8s (s : StateManager) (info : RuntimeInfo)
    (statusResult : Option PodStatusInfo) : RuntimeInfo × StateManager :=
  match statusResult with
  | none => (info, s)
  | some st =>
      let info' := { info with
        podStatus := st.status
        restartCount := st.restartCount
        restartReasons := st.restartReasons }
      (info', (UpdateRuntime s info').2)

/-- GetRuntime (handler.go lines 375-392).  An unknown runtime id is answered
with 404 immediately: the handler never calls discovery, even though the
`discoverByRuntimeID` result would be available from the k8s client (the
parameter is deliberately unused, mirroring the source). -/
def getRuntimeHandler (cfg : Config) (s : StateManager) (runtimeID : String)
    (discoverByRuntimeID : Option RuntimeInfo) (statusResult : Option PodStatusInfo) :
    LookupOutcome × StateManager × Nat :=
  match GetRuntimeByID s runtimeID with
  | none => (LookupOutcome.notFound404, s, 0)
  | some info =>
      let r := updateRuntimeStatusFromK8s s info statusResult
      (LookupOutcome.found (buildRuntimeResponse cfg r.1), r.2, 0)

/-- GetSession (handler.go lines 395-427).  An unknown session id triggers
one on-demand discovery by session-id label when the k8s client is present;
a discovered record is added to the state and answered, otherwise 404. -/
def getSessionHandler (cfg : Config) (s : StateManager) (sessionID : String)
    (k8sClientPresent : Bool) (discoverBySessionID : Option RuntimeInfo)
    (statusResult : Option PodStatusInfo) : LookupOutcome × StateManager × Nat :=
  match GetRuntimeBySessionID s sessionID with
  | some info =>
      let r := updateRuntimeStatusFromK8s s info statusResult
      (LookupOutcome.found (buildRuntimeResponse cfg r.1), r.2, 0)
  | none =>
      if k8sClientPresent then
        match discoverBySessionID with
        | some discovered =>
            let s₁ := AddRuntime s discovered
            let r := updateRuntimeStatusFromK8s s₁ discovered statusResult
            (LookupOutcome.found (buildRuntimeResponse cfg r.1), r.2, 1)
        | none => (LookupOutcome.notFound404, s, 1)
      else (LookupOutcome.notFound404, s, 0)

def c5Discovered : RuntimeInfo :=
  { runtimeID := "r5", sessionID := "S5", url := "https://s5.example.com"
    sessionAPIKey := "k5", status := RuntimeStatus.running, podStatus := PodStatus.ready
    workHosts := [], podName := "runtime-r5", serviceName := "runtime-r5"
    ingressName := "runtime-r5", restartCount := 0, restartReasons := []
    createdAt := 3, lastActivityTime := 3 }

/-! ## ProxySandbox path routing (pkg/api/handler.go lines 664-706)

The handler reads `r.URL.EscapedPath()` — the raw, still percent-encoded
path — strips `/sandbox/`, splits off the runtime id at the first slash, and
forwards the remainder as the backend's raw path (the `vscode` segment is
stripped for the editor port).  `none` is the 404 case. -/

def sandboxBackendRoute (cfg : Config) (escapedPath : List Char) :
    Option (List Char × Nat) :=
  if ¬ isPref ("/sandbox/".toList) escapedPath then none
  else
    let rest := trimPref ("/sandbox/".toList) escapedPath
    if rest = [] then none
    else
      let parts := splitFirstSlash rest
      if parts.1 = [] then none
      else
        match parts.2 with
        | some tail =>
            if tail = "vscode".toList ∨ isPref ("vscode/".toList) tail = true then
              let p := trimPref ("vscode".toList) tail
              let backendRawPath :=
                if tail = "vscode".toList then ['/']
                else if ¬ isPref ['/'] p = true then '/' :: p else p
              some (backendRawPath, cfg.vscodePort)
            else some ('/' :: tail, cfg.agentServerPort)
        | none => some (['/'], cfg.agentServerPort)

/-! ## Set-Cookie rewriting (pkg/api/handler.go lines 770-839) -/

/-- unicode.IsSpace restricted to ASCII whitespace (cookie attributes are
ASCII). -/
def isSp (c : Char) : Bool :=
  c = ' ' ∨ c = '\t' ∨ c = '\n' ∨ c = '\r'

/-- Left half of strings.TrimSpace. -/
def trimLeftSp (l : List Char) : List Char := l.dropWhile isSp

/-- Right half of strings.TrimSpace: removes trailing whitespace. -/
def trimRightSp : List Char → List Char
  | [] => []
  | c :: cs =>
      let r := trimRightSp cs
      if r = [] ∧ isSp c then [] else c :: r

/-- strings.TrimSpace. -/
def trimSpace (l : List Char) : List Char := trimRightSp (trimLeftSp l)

/-- strings.ToLower on a char list (ASCII model). -/
def asciiLowerList (l : List Char) : List Char := l.map asciiLowerChar

/-- Prepends a char to the first chunk of a split result. -/
def consHead (c : Char) : List (List Char) → List (List Char)
  | [] => [[c]]
  | h :: t => (c :: h) :: t

/-- strings.Split(s, ";"). -/
def splitSem : List Char → List (List Char)
  | [] => [[]]
  | c :: cs => if c = ';' then [] :: splitSem cs else consHead c (splitSem cs)

/-- strings.Join(parts, ";"). -/
def joinSem : List (List Char) → List Char
  | [] => []
  | [p] => p
  | p :: ps => p ++ ';' :: joinSem ps

/-- The body of rewriteCookiePath's loop for one `;`-separated attribute:
detects a Path attribute case-insensitively, strips the three spellings
`path=`/`Path=`/`PATH=`, and replaces a `/` or empty value by the proxy
path.  Returns the (possibly rewritten) part and the hasPath flag
contribution. -/
def rewritePart (proxyPathArg part : List Char) : List Char × Bool :=
  let trimmed := trimSpace part
  if isPref ("path=".toList) (asciiLowerList trimmed) then
    let v₁ := trimPref ("path=".toList) trimmed
    let v₂ := trimPref ("Path=".toList) v₁
    let v₃ := trimPref ("PATH=".toList) v₂
    let pathValue := trimSpace v₃
    if pathValue = ['/'] ∨ pathValue = [] then
      (' ' :: ("Path=".toList ++ proxyPathArg), true)
    else (part, true)
  else (part, false)

/-- rewriteCookiePath (handler.go lines 812-839): split on `;`, rewrite the
Path attribute per part, append a Path attribute when none was found, and
re-join with `;`. -/
def rewriteCookiePath (cookieHeader proxyPathArg : List Char) : List Char :=
  let parts := splitSem cookieHeader
  let processed := parts.map fun p => (rewritePart proxyPathArg p).1
  let hasPath := parts.any fun p => (rewritePart proxyPathArg p).2
  if hasPath then joinSem processed
  else joinSem (processed ++ [' ' :: ("Path=".toList ++ proxyPathArg)])

/-- The proxy path prepended by createProxyResponseRewriter: the editor port
gets the `/vscode` suffix. -/
def proxyPathFor (cfg : Config) (runtimeID : String) (backendPort : Nat) : List Char :=
  if backendPort = cfg.vscodePort then ("/sandbox/" ++ runtimeID ++ "/vscode").toList
  else ("/sandbox/" ++ runtimeID).toList

/-- createProxyResponseRewriter's Set-Cookie section (handler.go lines
795-804): every cookie header value is removed and re-added individually
after rewriting. -/
def rewriteSetCookies (cfg : Config) (runtimeID : String) (backendPort : Nat)
    (cookies : List (List Char)) : List (List Char) :=
  cookies.map fun cookie => rewriteCookiePath cookie (proxyPathFor cfg runtimeID backendPort)

/-- Claim-side extraction of a cookie's Path attribute value: cookie
attribute names are case-insensitive, so any spelling of `path=` counts.
Present only to state C7 against the code. -/
def cookiePathAttr (cookie : List Char) : Option (List Char) :=
  match (splitSem cookie).filter
      (fun p => isPref ("path=".toList) (asciiLowerList (trimSpace p))) with
  | [] => none
  | p :: _ => some (trimSpace ((trimSpace p).drop 5))

/-! ## Map lemmas -/

theorem mapLookup_mapInsert_self {α : Type} (m : List (String × α)) (k : String) (v : α) :
    mapLookup (mapInsert m k v) k = some v := by
  induction m with
  | nil => simp [mapInsert, mapLookup]
  | cons hd tl ih =>
      obtain ⟨k', v'⟩ := hd
      by_cases h : k' = k <;> simp [mapInsert, mapLookup, h, ih]

theorem mapLookup_mapInsert_ne {α : Type} (m : List (String × α)) (k k' : String) (v : α)
    (h : k' ≠ k) : mapLookup (mapInsert m k v) k' = mapLookup m k' := by
  have hkk : ¬ k = k' := fun hh => h hh.symm
  induction m with
  | nil => simp [mapInsert, mapLookup, hkk]
  | cons hd tl ih =>
      obtain ⟨k₀, v₀⟩ := hd
      by_cases h₀ : k₀ = k
      · subst h₀
        simp [mapInsert, mapLookup, hkk]
      · simp [mapInsert, mapLookup, h₀, ih]

theorem mapInsert_of_not_mem {α : Type} (m : List (String × α)) (k : String) (v : α)
    (h : mapLookup m k = none) : mapInsert m k v = m ++ [(k, v)] := by
  induction m with
  | nil => simp [mapInsert]
  | cons hd tl ih =>
      obtain ⟨k', v'⟩ := hd
      by_cases h' : k' = k
      · simp [mapLookup, h'] at h
      · simp [mapLookup, h'] at h
        simp [mapInsert, h', ih h]

theorem mapErase_append_self {α : Type} (m : List (String × α)) (k : String) (v : α)
    (h : mapLookup m k = none) : mapErase (m ++ [(k, v)]) k = m := by
  induction m with
  | nil => simp [mapErase]
  | cons hd tl ih =>
      obtain ⟨k', v'⟩ := hd
      by_cases h' : k' = k
      · simp [mapLookup, h'] at h
      · simp [mapLookup, h'] at h
        simp [mapErase, h', ih h]

theorem mapLookup_eq_none_of_nodup_erase {α : Type} (m : List (String × α)) (k : String)
    (hnd : (m.map Prod.fst).Nodup) : mapLookup (mapErase m k) k = none := by
  induction m with
  | nil => simp [mapErase, mapLookup]
  | cons hd tl ih =>
      obtain ⟨k', v'⟩ := hd
      simp only [List.map_cons, List.nodup_cons] at hnd
      by_cases h' : k' = k
      · subst h'
        simp only [mapErase, if_pos rfl]
        -- k' does not occur among the tail's keys, so lookup misses
        clear ih
        induction tl with
        | nil => simp [mapLookup]
        | cons hd₂ tl₂ ih₂ =>
            obtain ⟨k₂, v₂⟩ := hd₂
            simp only [List.map_cons, List.mem_cons, List.nodup_cons] at hnd
            have hk₂ : k₂ ≠ k' := fun hh => hnd.1 (Or.inl hh.symm)
            simp only [mapLookup, if_neg hk₂]
            exact ih₂ ⟨fun hm => hnd.1 (Or.inr hm), hnd.2.2⟩
      · simp only [mapErase, if_neg h', mapLookup, if_neg h']
        exact ih hnd.2

/-! ## Derived facts about the embedded handler pieces -/

theorem buildRuntimeResponse_runtimeID (cfg : Config) (info : RuntimeInfo) :
    (buildRuntimeResponse cfg info).runtimeID = info.runtimeID := by
  by_cases h : cfg.proxyBaseURL ≠ "" <;> simp [buildRuntimeResponse, h]

theorem buildRuntimeResponse_status (cfg : Config) (info : RuntimeInfo) :
    (buildRuntimeResponse cfg info).status = info.status := by
  by_cases h : cfg.proxyBaseURL ≠ "" <;> simp [buildRuntimeResponse, h]

/-- C10: State Store deletion and update atomicity.  A successful delete of
runtime id R removes both the runtime-id index entry for R and the session-id
index entry keyed by the stored record's session id; updating a record whose
runtime id is absent returns an error; and a failed update or delete leaves
both mappings exactly unchanged. -/
theorem C10_state_store_update_delete_atomic (s : StateManager) (rid : String)
    (info upd : RuntimeInfo)
    (hIDnd : (s.runtimeByID.map Prod.fst).Nodup)
    (hSessNd : (s.runtimeBySession.map Prod.fst).Nodup) :
    (GetRuntimeByID s rid = some info →
      (DeleteRuntime s rid).1 = Except.ok () ∧
      GetRuntimeByID (DeleteRuntime s rid).2 rid = none ∧
      GetRuntimeBySessionID (DeleteRuntime s rid).2 info.sessionID = none) ∧
    (GetRuntimeByID s upd.runtimeID = none →
      (UpdateRuntime s upd).1 = Except.error ("runtime not found: " ++ upd.runtimeID) ∧
      (UpdateRuntime s upd).2 = s) ∧
    (GetRuntimeByID s rid = none →
      (DeleteRuntime s rid).1 = Except.error ("runtime not found: " ++ rid) ∧
      (DeleteRuntime s rid).2 = s) := by
  refine ⟨?_, ?_, ?_⟩
  · intro h
    unfold GetRuntimeByID at h
    simp only [DeleteRuntime, h, GetRuntimeByID, GetRuntimeBySessionID]
    exact ⟨trivial, mapLookup_eq_none_of_nodup_erase _ _ hIDnd,
           mapLookup_eq_none_of_nodup_erase _ _ hSessNd⟩
  · intro h
    unfold GetRuntimeByID at h
    simp only [UpdateRuntime, h]
    exact ⟨trivial, trivial⟩
  · intro h
    unfold GetRuntimeByID at h
    simp only [DeleteRuntime, h]
    exact ⟨trivial, trivial⟩

theorem C10_witness :
    (DeleteRuntime c10State "rt-a").1 = Except.ok () ∧
    GetRuntimeByID (DeleteRuntime c10State "rt-a").2 "rt-a" = none ∧
    GetRuntimeBySessionID (DeleteRuntime c10State "rt-a").2 "sess-a" = none := by
  have h := C10_state_store_update_delete_atomic c10State "rt-a"
    { runtimeID := "rt-a", sessionID := "sess-a", url := "", sessionAPIKey := "k"
      status := RuntimeStatus.running, podStatus := PodStatus.ready, workHosts := []
      podName := "runtime-rt-a", serviceName := "runtime-rt-a", ingressName := "runtime-rt-a"
      restartCount := 0, restartReasons := [], createdAt := 0, lastActivityTime := 0 }
    { runtimeID := "rt-a", sessionID := "sess-a", url := "", sessionAPIKey := "k"
      status := RuntimeStatus.running, podStatus := PodStatus.ready, workHosts := []
      podName := "runtime-rt-a", serviceName := "runtime-rt-a", ingressName := "runtime-rt-a"
      restartCount := 0, restartReasons := [], createdAt := 0, lastActivityTime := 0 }
    (by decide) (by decide)
  exact h.1 (by decide)

/-- C1: Idempotent start.  If the session id already maps to a record, the
handler returns that record's response with the state unchanged and zero
CreateSandbox calls; and for a fresh session id, two successive starts return
responses carrying the same runtime id while exactly one workload creation
occurs (the second start makes no orchestrator call and leaves the state
unchanged). -/
theorem C1_idempotent_start (cfg : Config) (s : StateManager) (req : StartRequest)
    (rid key rid₂ key₂ : String) (now now₂ : Int) (ok₁ ok₂ : Bool)
    (hImg : req.image ≠ "") (hSid : req.sessionID ≠ "") :
    (∀ existing, GetRuntimeBySessionID s req.sessionID = some existing →
        startRuntime cfg s req rid key now ok₁ =
          (StartOutcome.ok (buildRuntimeResponse cfg existing), s, 0)) ∧
    (GetRuntimeBySessionID s req.sessionID = none →
        ∃ resp₁ resp₂ s₁ s₂,
          startRuntime cfg s req rid key now true = (StartOutcome.ok resp₁, s₁, 1) ∧
          startRuntime cfg s₁ req rid₂ key₂ now₂ ok₂ = (StartOutcome.ok resp₂, s₂, 0) ∧
          resp₁.runtimeID = rid ∧ resp₂.runtimeID = rid ∧ s₂ = s₁) := by
  have himg' : ¬ req.image = "" := hImg
  have hsid' : ¬ req.sessionID = "" := hSid
  constructor
  · intro existing hEx
    simp only [startRuntime, if_neg himg', if_neg hsid', hEx]
  · intro hNone
    set info₀ := mkStartRuntimeInfo cfg req rid key now with hinfo₀
    set infoR : RuntimeInfo := { info₀ with status := RuntimeStatus.running } with hinfoR
    have hridR : infoR.runtimeID = rid := by rw [hinfoR, hinfo₀]; rfl
    have hsidR : infoR.sessionID = req.sessionID := by rw [hinfoR, hinfo₀]; rfl
    set s₁ := (UpdateRuntime (AddRuntime s info₀) infoR).2 with hs₁
    have h₁ : startRuntime cfg s req rid key now true =
        (StartOutcome.ok (buildRuntimeResponse cfg infoR), s₁, 1) := by
      simp only [startRuntime, if_neg himg', if_neg hsid', hNone, hs₁, hinfoR, hinfo₀,
        if_pos rfl, if_true]
    have hLook : GetRuntimeBySessionID s₁ req.sessionID = some infoR := by
      have hIDsome : mapLookup (mapInsert s.runtimeByID info₀.runtimeID info₀)
          info₀.runtimeID = some info₀ := mapLookup_mapInsert_self _ _ _
      rw [hs₁]
      simp only [UpdateRuntime, AddRuntime, hIDsome, GetRuntimeBySessionID]
      exact mapLookup_mapInsert_self _ _ _
    have h₂ : startRuntime cfg s₁ req rid₂ key₂ now₂ ok₂ =
        (StartOutcome.ok (buildRuntimeResponse cfg infoR), s₁, 0) := by
      simp only [startRuntime, if_neg himg', if_neg hsid', hLook]
    exact ⟨buildRuntimeResponse cfg infoR, buildRuntimeResponse cfg infoR, s₁, s₁,
      h₁, h₂, by rw [buildRuntimeResponse_runtimeID, hridR],
      by rw [buildRuntimeResponse_runtimeID, hridR], rfl⟩

theorem C1_witness :
    (∀ existing, GetRuntimeBySessionID NewStateManager c1Req.sessionID = some existing →
        startRuntime c1Config NewStateManager c1Req "R1" "K1" 0 true =
          (StartOutcome.ok (buildRuntimeResponse c1Config existing), NewStateManager, 0)) ∧
    (GetRuntimeBySessionID NewStateManager c1Req.sessionID = none →
        ∃ resp₁ resp₂ s₁ s₂,
          startRuntime c1Config NewStateManager c1Req "R1" "K1" 0 true =
            (StartOutcome.ok resp₁, s₁, 1) ∧
          startRuntime c1Config s₁ c1Req "R2" "K2" 1 true = (StartOutcome.ok resp₂, s₂, 0) ∧
          resp₁.runtimeID = "R1" ∧ resp₂.runtimeID = "R1" ∧ s₂ = s₁) :=
  C1_idempotent_start c1Config NewStateManager c1Req "R1" "K1" "R2" "K2" 0 1 true true
    (by decide) (by decide)

/-- C3: Start is atomic on failure.  For a fresh session id the handler builds
a pending record carrying the generated runtime id, attempts exactly one
sandbox creation, and on failure returns the sandbox-creation-failed error
with the State Store restored exactly (both indices without the new entry);
on success the record transitions to running and is returned. -/
theorem C3_start_atomic_on_failure (cfg : Config) (s : StateManager) (req : StartRequest)
    (rid key : String) (now : Int)
    (hImg : req.image ≠ "") (hSid : req.sessionID ≠ "")
    (hFreshSession : GetRuntimeBySessionID s req.sessionID = none)
    (hFreshID : GetRuntimeByID s rid = none) :
    (mkStartRuntimeInfo cfg req rid key now).status = RuntimeStatus.pending ∧
    (mkStartRuntimeInfo cfg req rid key now).runtimeID = rid ∧
    startRuntime cfg s req rid key now false = (StartOutcome.sandboxCreationFailed, s, 1) ∧
    (∃ s', startRuntime cfg s req rid key now true =
        (StartOutcome.ok (buildRuntimeResponse cfg
          { mkStartRuntimeInfo cfg req rid key now with status := RuntimeStatus.running }),
         s', 1) ∧
      GetRuntimeByID s' rid =
        some { mkStartRuntimeInfo cfg req rid key now with status := RuntimeStatus.running } ∧
      (buildRuntimeResponse cfg { mkStartRuntimeInfo cfg req rid key now with
          status := RuntimeStatus.running }).status = RuntimeStatus.running) := by
  have himg' : ¬ req.image = "" := hImg
  have hsid' : ¬ req.sessionID = "" := hSid
  unfold GetRuntimeByID at hFreshID
  unfold GetRuntimeBySessionID at hFreshSession
  set info₀ := mkStartRuntimeInfo cfg req rid key now with hinfo₀
  have hrid₀ : info₀.runtimeID = rid := by rw [hinfo₀]; rfl
  have hsid₀ : info₀.sessionID = req.sessionID := by rw [hinfo₀]; rfl
  refine ⟨by rw [hinfo₀]; rfl, hrid₀, ?_, ?_⟩
  · -- failure path: the inserted record is removed again, restoring `s`
    have hIDsome : mapLookup (mapInsert s.runtimeByID info₀.runtimeID info₀) rid =
        some info₀ := by rw [hrid₀]; exact mapLookup_mapInsert_self _ _ _
    have heraID : mapErase (mapInsert s.runtimeByID info₀.runtimeID info₀) rid =
        s.runtimeByID := by
      rw [hrid₀, mapInsert_of_not_mem _ _ _ hFreshID]
      exact mapErase_append_self _ _ _ hFreshID
    have heraSess : mapErase (mapInsert s.runtimeBySession info₀.sessionID info₀)
        info₀.sessionID = s.runtimeBySession := by
      rw [hsid₀, mapInsert_of_not_mem _ _ _ hFreshSession]
      exact mapErase_append_self _ _ _ hFreshSession
    simp only [startRuntime, if_neg himg', if_neg hsid', GetRuntimeBySessionID,
      hFreshSession, Bool.false_eq_true, if_false, DeleteRuntime, AddRuntime,
      hIDsome, heraID, heraSess]
  · -- success path: the record is stored and returned with status running
    set infoR : RuntimeInfo := { info₀ with status := RuntimeStatus.running } with hinfoR
    have hIDsome : mapLookup (mapInsert s.runtimeByID info₀.runtimeID info₀)
        info₀.runtimeID = some info₀ := mapLookup_mapInsert_self _ _ _
    refine ⟨(UpdateRuntime (AddRuntime s info₀) infoR).2, ?_, ?_, ?_⟩
    · simp only [startRuntime, if_neg himg', if_neg hsid', GetRuntimeBySessionID,
        hFreshSession, if_true]
    · simp only [UpdateRuntime, AddRuntime, hIDsome, GetRuntimeByID]
      have : infoR.runtimeID = rid := by rw [hinfoR]; exact hrid₀
      rw [← this]
      exact mapLookup_mapInsert_self _ _ _
    · rw [buildRuntimeResponse_status]

theorem C3_witness :
    (mkStartRuntimeInfo c3Config c3Req "R3" "K3" 7).status = RuntimeStatus.pending ∧
    (mkStartRuntimeInfo c3Config c3Req "R3" "K3" 7).runtimeID = "R3" ∧
    startRuntime c3Config NewStateManager c3Req "R3" "K3" 7 false =
      (StartOutcome.sandboxCreationFailed, NewStateManager, 1) ∧
    (∃ s', startRuntime c3Config NewStateManager c3Req "R3" "K3" 7 true =
        (StartOutcome.ok (buildRuntimeResponse c3Config
          { mkStartRuntimeInfo c3Config c3Req "R3" "K3" 7 with
              status := RuntimeStatus.running }), s', 1) ∧
      GetRuntimeByID s' "R3" =
        some { mkStartRuntimeInfo c3Config c3Req "R3" "K3" 7 with
            status := RuntimeStatus.running } ∧
      (buildRuntimeResponse c3Config { mkStartRuntimeInfo c3Config c3Req "R3" "K3" 7 with
          status := RuntimeStatus.running }).status = RuntimeStatus.running) :=
  C3_start_atomic_on_failure c3Config NewStateManager c3Req "R3" "K3" 7
    (by decide) (by decide) (by decide) (by decide)

/-- C2: at time 1800, a record created at 0 but last active at 1740 (idle for
only 60 < 1440 minutes) is nevertheless reaped and classified `pod_idle`,
because the code measures idleness from `CreatedAt`.  Its status is not
`stopped`, so the cleanup loop does examine it. -/
theorem C2_idle_reaping_uses_created_at :
    shouldCleanupRuntime c2Config 1800 c2Runtime
      { status := PodStatus.ready, restartCount := 0, restartReasons := [] } =
      (true, "pod_idle") ∧
    c2Runtime.status ≠ RuntimeStatus.stopped ∧
    1800 - c2Runtime.lastActivityTime < c2Config.cleanupIdleThresholdMin := by
  decide

theorem isPref_append (p t : List Char) : isPref p (p ++ t) = true := by
  induction p with
  | nil => rfl
  | cons c cs ih => simp [isPref, ih]

theorem trimPref_append (p t : List Char) : trimPref p (p ++ t) = t := by
  simp [trimPref, isPref_append, List.drop_left]

theorem splitFirstSlash_append (a b : List Char) (ha : '/' ∉ a) :
    splitFirstSlash (a ++ '/' :: b) = (a, some b) := by
  induction a with
  | nil => simp [splitFirstSlash]
  | cons c cs ih =>
      simp only [List.mem_cons, not_or] at ha
      have hc : ¬ c = '/' := fun hh => ha.1 hh.symm
      simp [splitFirstSlash, hc, ih ha.2]

/-- C9: management-key noninterference on sandbox paths.  For every path of
the form `/sandbox/` followed by at least one character, the middleware
forwards the request without performing any key comparison, and its behaviour
is identical for any two values of the `X-API-Key` header (absent included)
and for any two configurations. -/
theorem C9_sandbox_auth_noninterference (rest : List Char) (hrest : rest ≠ [])
    (cfg cfg' : Config) (key key' : Option String) :
    authMiddleware cfg ("/sandbox/".toList ++ rest) key =
      (AuthDecision.forwardToNext, false) ∧
    authMiddleware cfg ("/sandbox/".toList ++ rest) key =
      authMiddleware cfg' ("/sandbox/".toList ++ rest) key' := by
  have h1 : isPref ("/sandbox/".toList) ("/sandbox/".toList ++ rest) = true :=
    isPref_append _ _
  have h2 : trimPref ("/sandbox/".toList) ("/sandbox/".toList ++ rest) = rest :=
    trimPref_append _ _
  have hp : pathIsSandboxProxy ("/sandbox/".toList ++ rest) = true := by
    simp only [pathIsSandboxProxy, h1, h2]
    simp [hrest]
  refine ⟨?_, ?_⟩ <;> simp only [authMiddleware, hp] <;> simp

theorem C9_witness :
    authMiddleware c1Config ("/sandbox/".toList ++ "rt-9/alive".toList) (some "wrong") =
      (AuthDecision.forwardToNext, false) ∧
    authMiddleware c1Config ("/sandbox/".toList ++ "rt-9/alive".toList) (some "wrong") =
      authMiddleware c3Config ("/sandbox/".toList ++ "rt-9/alive".toList) none :=
  C9_sandbox_auth_noninterference ("rt-9/alive".toList) (by decide) c1Config c3Config
    (some "wrong") none

theorem containerScan_foldl (l : List ContainerStatus) (acc : ScanAcc) :
    l.foldl containerScan acc =
      ⟨(if l.any (fun cs => cs.state.waitingReason = some "CrashLoopBackOff")
        then PodStatus.crashLoopBackOff else acc.status),
       acc.restartCount + (l.map fun cs => cs.restartCount).sum,
       acc.restartReasons ++
         (l.map fun cs =>
           cs.state.waitingReason.toList ++ cs.state.terminatedReason.toList).flatten⟩ := by
  induction l generalizing acc with
  | nil => simp
  | cons cs rest ih =>
      rw [List.foldl_cons, ih]
      by_cases hcl : cs.state.waitingReason = some "CrashLoopBackOff"
      · cases ht : cs.state.terminatedReason <;>
          simp [containerScan, hcl, ht, Nat.add_assoc, Option.toList]
      · cases hw : cs.state.waitingReason <;> cases ht : cs.state.terminatedReason <;>
          simp_all [containerScan, Nat.add_assoc, Option.toList]

theorem C6_counterexample :
    (c6CrashPod.containerStatuses.any
        fun cs => cs.state.waitingReason = some "CrashLoopBackOff") = true ∧
    c6CrashPod.phase ≠ PodPhase.failed ∧
    (getPodStatus (some c6CrashPod)).status = PodStatus.running ∧
    (getPodStatus (some c6CrashPod)).status ≠ PodStatus.crashLoopBackOff := by
  decide

/-- C6 (amended): GetPodStatus returns not-found for an absent pod; otherwise
`failed`/`pending`/`unknown` follow the phase, phase Running yields `ready`
exactly when there is at least one container and all are ready (else
`running`), and the crash-loop classification applies only when the phase is
none of the four switch cases; restart counts are summed and the
waiting/terminated reasons collected in container order. -/
theorem C6_amended_pod_status_mapping (pod? : Option Pod) :
    getPodStatus pod? =
      match pod? with
      | none => { status := PodStatus.notFound, restartCount := 0, restartReasons := [] }
      | some pod =>
          { status := podStatusSpec pod, restartCount := podRestartCountSpec pod
            restartReasons := podRestartReasonsSpec pod } := by
  cases pod? with
  | none => rfl
  | some pod =>
      simp only [getPodStatus]
      rw [containerScan_foldl]
      cases hph : pod.phase <;>
        simp [podStatusSpec, podRestartCountSpec, podRestartReasonsSpec,
          hasCrashLoopWaiting, hph, List.length_pos, and_comm]

/-- C8: rediscovery preserves creation age.  A record reconstructed from a
workload carries the workload's orchestrator-recorded creation timestamp as
`createdAt`, falling back to the current time only when that timestamp is the
zero value. -/
theorem C8_rediscovery_preserves_created_at (cfg : Config) (now : Int) (pod : Pod)
    (statusResult : Option PodStatusInfo) (rid sid : String) :
    (pod.creationTimestamp ≠ 0 →
      (buildRuntimeInfoFromPod cfg now pod statusResult rid sid).createdAt =
        pod.creationTimestamp) ∧
    (pod.creationTimestamp = 0 →
      (buildRuntimeInfoFromPod cfg now pod statusResult rid sid).createdAt = now) := by
  constructor <;> intro h <;> simp [buildRuntimeInfoFromPod, h]

theorem C8_witness :
    (buildRuntimeInfoFromPod c1Config 500 c8Pod none "r8" "S8").createdAt = 99 ∧
    (buildRuntimeInfoFromPod c1Config 500
        { c8Pod with creationTimestamp := 0 } none "r8" "S8").createdAt = 500 :=
  ⟨(C8_rediscovery_preserves_created_at c1Config 500 c8Pod none "r8" "S8").1 (by decide),
   (C8_rediscovery_preserves_created_at c1Config 500 { c8Pod with creationTimestamp := 0 }
      none "r8" "S8").2 (by decide)⟩

theorem updateRuntimeStatusFromK8s_runtimeID (s : StateManager) (info : RuntimeInfo)
    (st : Option PodStatusInfo) :
    (updateRuntimeStatusFromK8s s info st).1.runtimeID = info.runtimeID := by
  cases st <;> simp [updateRuntimeStatusFromK8s]

/-- C5 counterexample: GET /runtime/r5 with an empty State Store answers 404
and performs zero discovery calls even though discovery by runtime-id would
find a workload — contradicting the claim that single runtime lookups perform
on-demand discovery before returning 404. -/
theorem C5_counterexample :
    getRuntimeHandler c1Config NewStateManager "r5" (some c5Discovered) none =
      (LookupOutcome.notFound404, NewStateManager, 0) ∧
    (some c5Discovered).isSome = true := by
  decide

/-- C5 (amended): GET /sessions/s with an unknown session id performs exactly
one on-demand discovery (k8s client present) and returns 404 only when the
discovery finds nothing, answering with the discovered record otherwise;
GET /runtime/r with an unknown runtime id returns 404 immediately with no
discovery call. -/
theorem C5_amended_discovery_on_lookups (cfg : Config) (s : StateManager)
    (sid rid : String) (d : Option RuntimeInfo) (st : Option PodStatusInfo) :
    (GetRuntimeBySessionID s sid = none →
      (getSessionHandler cfg s sid true d st).2.2 = 1 ∧
      (d = none → (getSessionHandler cfg s sid true d st).1 = LookupOutcome.notFound404) ∧
      (∀ dr, d = some dr → ∃ resp,
        (getSessionHandler cfg s sid true d st).1 = LookupOutcome.found resp ∧
        resp.runtimeID = dr.runtimeID)) ∧
    (GetRuntimeByID s rid = none →
      getRuntimeHandler cfg s rid d st = (LookupOutcome.notFound404, s, 0)) := by
  constructor
  · intro hN
    refine ⟨?_, ?_, ?_⟩
    · cases d <;> simp [getSessionHandler, hN]
    · intro hd
      subst hd
      simp [getSessionHandler, hN]
    · intro dr hd
      subst hd
      refine ⟨buildRuntimeResponse cfg
        (updateRuntimeStatusFromK8s (AddRuntime s dr) dr st).1, ?_, ?_⟩
      · simp [getSessionHandler, hN]
      · rw [buildRuntimeResponse_runtimeID, updateRuntimeStatusFromK8s_runtimeID]
  · intro hN
    simp [getRuntimeHandler, hN]

theorem C5_witness :
    (getSessionHandler c1Config NewStateManager "S5" true (some c5Discovered) none).2.2
        = 1 ∧
    (∃ resp, (getSessionHandler c1Config NewStateManager "S5" true (some c5Discovered)
        none).1 = LookupOutcome.found resp ∧ resp.runtimeID = "r5") ∧
    getRuntimeHandler c1Config NewStateManager "r5x" none none =
      (LookupOutcome.notFound404, NewStateManager, 0) := by
  have h := C5_amended_discovery_on_lookups c1Config NewStateManager "S5" "r5x"
    (some c5Discovered) none
  refine ⟨(h.1 (by decide)).1, ?_, ?_⟩
  · obtain ⟨resp, h1, h2⟩ := (h.1 (by decide)).2.2 c5Discovered rfl
    exact ⟨resp, h1, by rw [h2]; decide⟩
  · have h' := C5_amended_discovery_on_lookups c1Config NewStateManager "S5" "r5x"
      none none
    exact h'.2 (by decide)

/-- C4: percent-encoding preservation.  For any request path
`/sandbox/{rid}/{rest}` the raw path forwarded to the backend is `/{rest}`
byte for byte (so every percent-encoded sequence of the incoming path appears
identically in the forwarded path, no decoding); on the editor route
`/sandbox/{rid}/vscode/{r}` the forwarded raw path is `/{r}`, again byte for
byte. -/
theorem C4_percent_encoding_preserved (cfg : Config) (rid rest : List Char)
    (hrid : rid ≠ []) (hslash : '/' ∉ rid) :
    (¬ (rest = "vscode".toList ∨ isPref ("vscode/".toList) rest = true) →
      sandboxBackendRoute cfg ("/sandbox/".toList ++ rid ++ '/' :: rest) =
        some ('/' :: rest, cfg.agentServerPort) ∧
      ∀ seq : List Char, List.IsInfix seq rest → List.IsInfix seq ('/' :: rest)) ∧
    (∀ r₂, rest = "vscode".toList ++ '/' :: r₂ →
      sandboxBackendRoute cfg ("/sandbox/".toList ++ rid ++ '/' :: rest) =
        some ('/' :: r₂, cfg.vscodePort)) := by
  have h1 : isPref ("/sandbox/".toList) ("/sandbox/".toList ++ (rid ++ '/' :: rest)) =
      true := isPref_append _ _
  have h2 : trimPref ("/sandbox/".toList) ("/sandbox/".toList ++ (rid ++ '/' :: rest)) =
      rid ++ '/' :: rest := trimPref_append _ _
  have h4 : splitFirstSlash (rid ++ '/' :: rest) = (rid, some rest) :=
    splitFirstSlash_append rid rest hslash
  have hne : rid ++ '/' :: rest ≠ [] := by
    cases rid with
    | nil => exact absurd rfl hrid
    | cons a l => simp
  constructor
  · intro hnv
    constructor
    · have hlitv : "vscode".toList = ['v', 's', 'c', 'o', 'd', 'e'] := rfl
      have hlitvs : "vscode/".toList = ['v', 's', 'c', 'o', 'd', 'e', '/'] := rfl
      rw [hlitv, hlitvs] at hnv
      have hnv1 : ¬ rest = ['v', 's', 'c', 'o', 'd', 'e'] := fun h => hnv (Or.inl h)
      have hnv2 : isPref ['v', 's', 'c', 'o', 'd', 'e', '/'] rest = false := by
        cases h : isPref ['v', 's', 'c', 'o', 'd', 'e', '/'] rest with
        | false => rfl
        | true => exact absurd (Or.inr h) hnv
      rw [sandboxBackendRoute.eq_def, List.append_assoc]
      simp only [h1, h2, h4]
      simp [hrid, hne, hnv1, hnv2]
    · intro seq hs
      obtain ⟨u, t, hst⟩ := hs
      exact ⟨'/' :: u, t, by rw [← hst]; simp⟩
  · intro r₂ hr
    subst hr
    rw [sandboxBackendRoute.eq_def, List.append_assoc]
    simp only [h1, h2, h4]
    simp [hrid, hne, isPref, trimPref]

theorem C4_witness :
    sandboxBackendRoute c1Config ("/sandbox/".toList ++ "abc".toList ++
        '/' :: "api/file/upload/%2Fworkspace%2Ffile.txt".toList) =
      some ('/' :: "api/file/upload/%2Fworkspace%2Ffile.txt".toList,
        c1Config.agentServerPort) ∧
    sandboxBackendRoute c1Config ("/sandbox/".toList ++ "abc".toList ++
        '/' :: ("vscode".toList ++ '/' :: "x%2Fy".toList)) =
      some ('/' :: "x%2Fy".toList, c1Config.vscodePort) := by
  have h := C4_percent_encoding_preserved c1Config ("abc".toList)
    ("api/file/upload/%2Fworkspace%2Ffile.txt".toList) (by decide) (by decide)
  have h' := C4_percent_encoding_preserved c1Config ("abc".toList)
    ("vscode".toList ++ '/' :: "x%2Fy".toList) (by decide) (by decide)
  exact ⟨(h.1 (by decide)).1, h'.2 ("x%2Fy".toList) rfl⟩

/-- C7 counterexample: the cookie `s=1; pAth=/` carries the Path attribute
value `/`, so under the claim it must be re-emitted with the Path set to the
proxy prefix; the code's TrimPrefix chain handles only the spellings
`path=`/`Path=`/`PATH=`, leaves the part untouched, and emits the cookie
unchanged (Path still `/`). -/
theorem C7_counterexample :
    cookiePathAttr ("s=1; pAth=/".toList) = some ['/'] ∧
    rewriteCookiePath ("s=1; pAth=/".toList) ("/sandbox/rid".toList) =
      "s=1; pAth=/".toList ∧
    cookiePathAttr (rewriteCookiePath ("s=1; pAth=/".toList) ("/sandbox/rid".toList)) ≠
      some ("/sandbox/rid".toList) := by
  decide

theorem splitSem_no_sem (p : List Char) (hp : ';' ∉ p) : splitSem p = [p] := by
  induction p with
  | nil => rfl
  | cons c cs ih =>
      simp only [List.mem_cons, not_or] at hp
      have hc : ¬ c = ';' := fun hh => hp.1 hh.symm
      simp [splitSem, hc, ih hp.2, consHead]

theorem splitSem_append (a b : List Char) (ha : ';' ∉ a) :
    splitSem (a ++ ';' :: b) = a :: splitSem b := by
  induction a with
  | nil => simp [splitSem]
  | cons c cs ih =>
      simp only [List.mem_cons, not_or] at ha
      have hc : ¬ c = ';' := fun hh => ha.1 hh.symm
      simp [splitSem, hc, ih ha.2, consHead]

theorem rewritePart_fst_of_not_path (pp p : List Char)
    (h : (rewritePart pp p).2 = false) : (rewritePart pp p).1 = p := by
  simp only [rewritePart] at h ⊢
  split at h
  · split at h <;> simp_all
  · simp_all

theorem trimRightSp_append (a v : List Char) (hv : trimRightSp v = v) (hne : v ≠ []) :
    trimRightSp (a ++ v) = a ++ v := by
  induction a with
  | nil => simpa using hv
  | cons c a' ih =>
      have hne' : ¬ a' ++ v = [] := by
        intro hh
        exact hne (List.append_eq_nil.mp hh).2
      simp only [List.cons_append, trimRightSp, List.append_eq, ih, hne', false_and,
        if_false]

/-- Core two-part case: a cookie `name; part` where `name` is not a Path
attribute and `part` rewrites to `new` with the hasPath flag set. -/
theorem rewriteCookiePath_two_parts (name part new pp : List Char)
    (hn1 : ';' ∉ name) (hn2 : (rewritePart pp name).2 = false)
    (hp1 : ';' ∉ part) (hp2 : rewritePart pp part = (new, true)) :
    rewriteCookiePath (name ++ ';' :: part) pp = name ++ ';' :: new := by
  have hsplit : splitSem (name ++ ';' :: part) = [name, part] := by
    rw [splitSem_append _ _ hn1, splitSem_no_sem _ hp1]
  simp only [rewriteCookiePath, hsplit, List.map_cons, List.map_nil, List.any_cons,
    List.any_nil, rewritePart_fst_of_not_path _ _ hn2, hn2, hp2]
  simp [joinSem]

/-- Core no-Path case: a Path attribute pointing at the proxy path is
appended. -/
theorem rewriteCookiePath_no_path (name pp : List Char)
    (hn1 : ';' ∉ name) (hn2 : (rewritePart pp name).2 = false) :
    rewriteCookiePath name pp = name ++ ';' :: ' ' :: ("Path=".toList ++ pp) := by
  have hsplit : splitSem name = [name] := splitSem_no_sem _ hn1
  simp only [rewriteCookiePath, hsplit, List.map_cons, List.map_nil, List.any_cons,
    List.any_nil, rewritePart_fst_of_not_path _ _ hn2, hn2]
  simp [joinSem]

/-- A Path attribute with a trimmed, non-root, non-empty value passes through
rewriteCookiePath's per-part transform unchanged (with the hasPath flag set). -/
theorem rewritePart_other_value (pp v : List Char)
    (hv0 : v ≠ ['/']) (hv1 : v ≠ [])
    (hv2 : trimRightSp v = v) (hv3 : trimSpace v = v)
    (hv4 : isPref ("PATH=".toList) v = false) :
    rewritePart pp (' ' :: ("Path=".toList ++ v)) =
      (' ' :: ("Path=".toList ++ v), true) := by
  have hX : ("Path=".toList ++ v) = 'P' :: ("ath=".toList ++ v) := rfl
  have htl : trimLeftSp (' ' :: ("Path=".toList ++ v)) = "Path=".toList ++ v := by
    rw [trimLeftSp, hX]
    simp [List.dropWhile_cons, isSp]
  have htrim : trimSpace (' ' :: ("Path=".toList ++ v)) = "Path=".toList ++ v := by
    rw [trimSpace, htl]
    exact trimRightSp_append _ _ hv2 hv1
  have hlowc : asciiLowerList ("Path=".toList) = "path=".toList := by decide
  have hlow : asciiLowerList ("Path=".toList ++ v) =
      "path=".toList ++ asciiLowerList v := by
    rw [asciiLowerList, List.map_append, ← asciiLowerList, ← asciiLowerList, hlowc]
  have hdet : isPref ("path=".toList) ("path=".toList ++ asciiLowerList v) = true :=
    isPref_append _ _
  have hdet0 : isPref ("path=".toList) ("Path=".toList ++ v) = false := by
    rw [hX]
    simp [isPref]
  have htp1 : trimPref ("path=".toList) ("Path=".toList ++ v) =
      "Path=".toList ++ v := by
    rw [trimPref.eq_def, hdet0]
    simp
  have htp2 : trimPref ("Path=".toList) ("Path=".toList ++ v) = v :=
    trimPref_append _ _
  have htp3 : trimPref ("PATH=".toList) v = v := by
    rw [trimPref.eq_def, hv4]
    simp
  rw [rewritePart.eq_def]
  simp only [htrim, hlow, hdet, htp1, htp2, htp3, hv3, if_true]
  simp [hv0, hv1]

/-- C7 (amended): rewriteCookiePath rewrites a Path attribute whose value is
`/` or empty to the proxy path when the attribute name is spelled `path=`,
`Path=` or `PATH=` (the case-insensitive detection combined with the
case-sensitive TrimPrefix chain leaves other spellings untouched); it leaves
any other Path value unchanged; it appends a Path attribute when none is
present; and the proxy rewriter re-emits every cookie as its own header
value. -/
theorem C7_amended_set_cookie_rewrite (name v pp : List Char)
    (hn1 : ';' ∉ name) (hn2 : (rewritePart pp name).2 = false)
    (hv0 : v ≠ ['/']) (hv1 : v ≠ [])
    (hv2 : trimRightSp v = v) (hv3 : trimSpace v = v)
    (hv4 : isPref ("PATH=".toList) v = false) (hv5 : ';' ∉ v) :
    rewriteCookiePath (name ++ ';' :: " Path=/".toList) pp =
      name ++ ';' :: ' ' :: ("Path=".toList ++ pp) ∧
    rewriteCookiePath (name ++ ';' :: " path=/".toList) pp =
      name ++ ';' :: ' ' :: ("Path=".toList ++ pp) ∧
    rewriteCookiePath (name ++ ';' :: " PATH=/".toList) pp =
      name ++ ';' :: ' ' :: ("Path=".toList ++ pp) ∧
    rewriteCookiePath (name ++ ';' :: " Path=".toList) pp =
      name ++ ';' :: ' ' :: ("Path=".toList ++ pp) ∧
    rewriteCookiePath (name ++ ';' :: (' ' :: ("Path=".toList ++ v))) pp =
      name ++ ';' :: (' ' :: ("Path=".toList ++ v)) ∧
    rewriteCookiePath name pp = name ++ ';' :: ' ' :: ("Path=".toList ++ pp) ∧
    ∀ (cfg : Config) (rid : String) (port : Nat) (cookies : List (List Char)) (i : Nat),
      (rewriteSetCookies cfg rid port cookies).length = cookies.length ∧
      (rewriteSetCookies cfg rid port cookies)[i]? =
        (cookies[i]?).map fun c => rewriteCookiePath c (proxyPathFor cfg rid port) := by
  have hp1 : ';' ∉ (' ' :: ("Path=".toList ++ v)) := by
    intro hmem
    rcases List.mem_cons.mp hmem with h | h
    · exact absurd h (by decide)
    · rcases List.mem_append.mp h with h2 | h2
      · exact absurd h2 (by decide)
      · exact hv5 h2
  refine ⟨?_, ?_, ?_, ?_, ?_, ?_, ?_⟩
  · exact rewriteCookiePath_two_parts _ _ _ _ hn1 hn2 (by decide) rfl
  · exact rewriteCookiePath_two_parts _ _ _ _ hn1 hn2 (by decide) rfl
  · exact rewriteCookiePath_two_parts _ _ _ _ hn1 hn2 (by decide) rfl
  · exact rewriteCookiePath_two_parts _ _ _ _ hn1 hn2 (by decide) rfl
  · exact rewriteCookiePath_two_parts _ _ _ _ hn1 hn2 hp1
      (rewritePart_other_value pp v hv0 hv1 hv2 hv3 hv4)
  · exact rewriteCookiePath_no_path _ _ hn1 hn2
  · intro cfg rid port cookies i
    exact ⟨by simp [rewriteSetCookies], by simp [rewriteSetCookies]⟩

theorem C7_witness :
    rewriteCookiePath ("s=1".toList ++ ';' :: " Path=/".toList) ("/sandbox/rid".toList) =
      "s=1".toList ++ ';' :: ' ' :: ("Path=".toList ++ "/sandbox/rid".toList) ∧
    rewriteCookiePath ("s=1".toList ++ ';' :: (' ' :: ("Path=".toList ++ "/app".toList)))
        ("/sandbox/rid".toList) =
      "s=1".toList ++ ';' :: (' ' :: ("Path=".toList ++ "/app".toList)) ∧
    rewriteCookiePath ("s=1".toList) ("/sandbox/rid".toList) =
      "s=1".toList ++ ';' :: ' ' :: ("Path=".toList ++ "/sandbox/rid".toList) := by
  have h := C7_amended_set_cookie_rewrite ("s=1".toList) ("/app".toList)
    ("/sandbox/rid".toList) (by decide) (by decide) (by decide) (by decide)
    (by decide) (by decide) (by decide) (by decide)
  exact ⟨h.1, h.2.2.2.2.1, h.2.2.2.2.2.1⟩

end OpenHands
